import Mathlib

/-!
Verification of the AuthDelegate credential-refresh core of the AVS device
SDK.  The behaviour-defining test scenarios live in
`AuthDelegate/test/AuthDelegateTest.cpp`; the engine itself (AuthDelegate.cpp)
is modelled from the specification, since only its tests are available.
The model is a shallow embedding: the engine's background refresh loop is a
function consuming the finite script of HTTP results a mock transport would
return, with discrete time measured in seconds and every observer
notification recorded with the instant at which it fires.
-/

namespace AvsAuth

/-- Authorization states of the engine, mirroring
`AuthObserverInterface::State` used throughout `AuthDelegateTest.cpp`. -/
inductive AuthState
  | UNINITIALIZED
  | REFRESHED
  | EXPIRED
  | UNRECOVERABLE_ERROR
deriving DecidableEq, Repr

/-- HTTP response-code classes of the transport capability, mirroring
`HttpPostInterface::ResponseCode` used in `AuthDelegateTest.cpp`
(`SUCCESS_OK`, `CLIENT_ERROR_BAD_REQUEST`, `SERVER_ERROR_INTERNAL`,
`UNDEFINED`). -/
inductive ResponseCode
  | SUCCESS_OK
  | CLIENT_ERROR_BAD_REQUEST
  | SERVER_ERROR_INTERNAL
  | UNDEFINED
deriving DecidableEq, Repr

/-- A JSON scalar value, as far as the LWA token-endpoint wire format needs:
strings and integers. -/
inductive JsonValue
  | jstr (s : String)
  | jnum (n : Int)
deriving DecidableEq, Repr

/-- A parsed JSON object: an association list from field names to values. -/
structure JsonObject where
  fields : List (String × JsonValue)
deriving DecidableEq, Repr

/-- Look up a string-valued field of a JSON object. -/
def JsonObject.getString (o : JsonObject) (k : String) : Option String :=
  match o.fields.lookup k with
  | some (JsonValue.jstr s) => some s
  | _ => none

/-- Look up an integer-valued field of a JSON object. -/
def JsonObject.getInt (o : JsonObject) (k : String) : Option Int :=
  match o.fields.lookup k with
  | some (JsonValue.jnum n) => some n
  | _ => none

/-- One result of the HTTP POST capability: a response code together with the
response body.  `body = none` models body text that does not parse as JSON;
`body = some obj` models body text parsing as the JSON object `obj`. -/
structure HttpResult where
  code : ResponseCode
  body : Option JsonObject
deriving DecidableEq, Repr

/-- Outcome of classifying one HTTP response. -/
inductive ClassifyResult
  | Success (accessToken : String) (expiresIn : Nat) (refreshToken : String)
  | RetryableFailure
  | FatalFailure
deriving DecidableEq, Repr

/-- Modelled from the spec: the set of client-error (`error` field) codes the
missing AuthDelegate.cpp recognizes as unrecoverable — `invalid_request` per
the test constant `ERROR_CODE_INVALID_REQUEST`, plus the invalid-client /
invalid-grant vocabulary the spec names as equivalent. -/
def recognizedFatalErrorCodes : List String :=
  ["invalid_request", "invalid_client", "invalid_grant", "unauthorized_client"]

/-- Modelled from the spec: the ResponseClassifier of the missing
AuthDelegate.cpp.  Success requires a success code and a JSON body with a
string `access_token`, an integer `expires_in` that is not negative, and a
string `refresh_token`; transport-level UNDEFINED, server errors, and
malformed success bodies are retryable; a client error is fatal exactly when
its body carries a recognized fatal `error` code. -/
def classifyResponse (code : ResponseCode) (body : Option JsonObject) : ClassifyResult :=
  match code with
  | ResponseCode.UNDEFINED => ClassifyResult.RetryableFailure
  | ResponseCode.SERVER_ERROR_INTERNAL => ClassifyResult.RetryableFailure
  | ResponseCode.SUCCESS_OK =>
    match body with
    | none => ClassifyResult.RetryableFailure
    | some obj =>
      match obj.getString "access_token", obj.getInt "expires_in",
            obj.getString "refresh_token" with
      | some a, some e, some r =>
        if 0 ≤ e then ClassifyResult.Success a e.toNat r
        else ClassifyResult.RetryableFailure
      | _, _, _ => ClassifyResult.RetryableFailure
  | ResponseCode.CLIENT_ERROR_BAD_REQUEST =>
    match body with
    | none => ClassifyResult.RetryableFailure
    | some obj =>
      match obj.getString "error" with
      | some err =>
        if recognizedFatalErrorCodes.contains err then ClassifyResult.FatalFailure
        else ClassifyResult.RetryableFailure
      | none => ClassifyResult.RetryableFailure

/-- Modelled from the spec: base retry delay of the BackoffPolicy, in
seconds (a tunable configuration constant of the missing AuthDelegate.cpp). -/
def baseRetryDelay : Nat := 2

/-- Modelled from the spec: exponent at which the exponential backoff growth
is capped. -/
def capExponent : Nat := 5

/-- Modelled from the spec: bound on the random jitter added to each wait. -/
def maxJitter : Nat := 1

/-- Modelled from the spec: ceiling on any single wait duration, in seconds. -/
def maxWaitCeiling : Nat := 64

/-- Modelled from the spec: maximum consecutive-failure count after which a
retryable failure is escalated to a fatal failure. -/
def maxConsecutiveFailures : Nat := 10

/-- Modelled from the spec: safety margin, in seconds, by which the early
refresh wake-up precedes the expiry instant. -/
def earlyRefreshMargin : Nat := 5

/-- Modelled from the spec: the BackoffPolicy of the missing
AuthDelegate.cpp.  Given the attempt count `n` (0 for the first attempt) and
a jitter sample, the wait before the next attempt is
`baseRetryDelay * 2 ^ min n capExponent` plus the jitter clamped to
`maxJitter`, the whole capped at `maxWaitCeiling`. -/
def backoffWait (n : Nat) (jitter : Nat) : Nat :=
  min (baseRetryDelay * 2 ^ min n capExponent + min jitter maxJitter) maxWaitCeiling

/-- Configuration snapshot supplied to the engine at creation, mirroring the
accessors of the mocked `Config` (`getClientId`, `getClientSecret`,
`getRefreshToken`, `getLwaUrl`); `lwaUrl = none` models a config that does
not specify a refresh-endpoint URL. -/
structure Config where
  clientId : String
  clientSecret : String
  refreshToken : String
  lwaUrl : Option String
deriving DecidableEq, Repr

/-- URL to which refresh requests go by default, the constant
`DEFAULT_LWA_URL` of `AuthDelegateTest.cpp`. -/
def DEFAULT_LWA_URL : String := "https://api.amazon.com/auth/o2/token"

/-- The endpoint URL the engine actually uses: the configured one, or the
default constant when the config leaves it unspecified. -/
def effectiveLwaUrl (c : Config) : String :=
  c.lwaUrl.getD DEFAULT_LWA_URL

/-- Mutable state of the engine's background refresh loop: current
authorization state, current time (seconds), expiry instant of the current
token if any, count of consecutive retryable failures, and the scheduled
instant of the next refresh attempt. -/
structure EngineState where
  authState : AuthState
  now : Nat
  expiresAt : Option Nat
  retryCount : Nat
  nextAttemptAt : Nat
deriving DecidableEq, Repr

/-- State of a freshly created engine: UNINITIALIZED at time 0, no token, no
failures yet, first refresh attempt immediately. -/
def initialEngineState : EngineState :=
  { authState := AuthState.UNINITIALIZED
    now := 0
    expiresAt := none
    retryCount := 0
    nextAttemptAt := 0 }

/-- Modelled from the spec: the engine handle returned by
`AuthDelegate::create` of the missing AuthDelegate.cpp — the validated config
snapshot, the endpoint URL, the loop state, and the single observer slot
(observers are identified by a number; `none` means detached). -/
structure AuthDelegate where
  config : Config
  url : String
  state : EngineState
  observer : Option Nat
deriving DecidableEq, Repr

/-- Modelled from the spec: `AuthDelegate::create` of the missing
AuthDelegate.cpp.  Fails (returns `none`) on a null config reference or on an
empty clientId, clientSecret or refreshToken; otherwise returns a live engine
in UNINITIALIZED with no observer. -/
def AuthDelegate.create (config : Option Config) : Option AuthDelegate :=
  match config with
  | none => none
  | some c =>
    if c.clientId = "" ∨ c.clientSecret = "" ∨ c.refreshToken = "" then none
    else some
      { config := c
        url := effectiveLwaUrl c
        state := initialEngineState
        observer := none }

/-- The notification emitted when the state actually changes: transitions are
only signaled on actual state change (redundant re-entry is suppressed). -/
def notifyIfChanged (old new : AuthState) (t : Nat) : List (Nat × AuthState) :=
  if old = new then [] else [(t, new)]

/-- Modelled from the spec: the expiration-scheduling rule of the missing
AuthDelegate.cpp.  If the engine is REFRESHED and the expiry instant arrives
no later than the next scheduled attempt, it transitions to EXPIRED at the
expiry instant, regardless of the retry in progress. -/
def checkExpiry (s : EngineState) : EngineState × List (Nat × AuthState) :=
  match s.authState, s.expiresAt with
  | AuthState.REFRESHED, some e =>
    if e ≤ s.nextAttemptAt then
      ({ s with authState := AuthState.EXPIRED, now := e }, [(e, AuthState.EXPIRED)])
    else (s, [])
  | _, _ => (s, [])

/-- Modelled from the spec: how the missing AuthDelegate.cpp folds one
classified refresh outcome into the loop state, at the attempt instant
`s.nextAttemptAt`.  Success moves to REFRESHED, records
`expiresAt = now + expires_in`, resets the failure count and schedules the
early refresh a safety margin before expiry; a retryable failure either
escalates to UNRECOVERABLE_ERROR once the consecutive-failure cap is reached
or schedules the next attempt after the (zero-jitter) backoff wait; a fatal
failure moves to UNRECOVERABLE_ERROR. -/
def handleOutcome (s : EngineState) (r : ClassifyResult) : EngineState × List (Nat × AuthState) :=
  let t := s.nextAttemptAt
  match r with
  | ClassifyResult.Success _ expiresIn _ =>
    ({ s with authState := AuthState.REFRESHED
              now := t
              expiresAt := some (t + expiresIn)
              retryCount := 0
              nextAttemptAt := max t (t + expiresIn - earlyRefreshMargin) },
     notifyIfChanged s.authState AuthState.REFRESHED t)
  | ClassifyResult.RetryableFailure =>
    if maxConsecutiveFailures ≤ s.retryCount + 1 then
      ({ s with authState := AuthState.UNRECOVERABLE_ERROR, now := t },
       notifyIfChanged s.authState AuthState.UNRECOVERABLE_ERROR t)
    else
      ({ s with retryCount := s.retryCount + 1
                now := t
                nextAttemptAt := t + backoffWait s.retryCount 0 }, [])
  | ClassifyResult.FatalFailure =>
    ({ s with authState := AuthState.UNRECOVERABLE_ERROR, now := t },
     notifyIfChanged s.authState AuthState.UNRECOVERABLE_ERROR t)

/-- Result of running the background loop against a finite script of HTTP
results: the URLs posted to (one per attempt, in order), the timestamped
observer notifications, and the final loop state. -/
structure RunResult where
  posts : List String
  notes : List (Nat × AuthState)
  final : EngineState
deriving DecidableEq, Repr

/-- Modelled from the spec: the background refresh loop of the missing
AuthDelegate.cpp, driven by the finite script of results the (mock) HTTP POST
capability returns, one per attempt.  In UNRECOVERABLE_ERROR the loop stops
all further network activity permanently; otherwise each iteration first
fires a due expiry transition, then performs one POST and folds the
classified outcome into the state. -/
def runLoop (url : String) : EngineState → List HttpResult → RunResult
  | s, [] => { posts := [], notes := [], final := s }
  | s, r :: rest =>
    if s.authState = AuthState.UNRECOVERABLE_ERROR then
      { posts := [], notes := [], final := s }
    else
      let p1 := checkExpiry s
      let p2 := handleOutcome p1.fst (classifyResponse r.code r.body)
      let k := runLoop url p2.fst rest
      { posts := url :: k.posts
        notes := p1.snd ++ p2.snd ++ k.notes
        final := k.final }

/-- Create an engine from an optional config and, if creation succeeds, run
its background loop against the given HTTP script; a failed creation
performs no network activity and starts no background work. -/
def createAndRun (config : Option Config) (script : List HttpResult) :
    List String × List (Nat × AuthState) :=
  match AuthDelegate.create config with
  | none => ([], [])
  | some d =>
    let k := runLoop d.url d.state script
    (k.posts, k.notes)

/-- Modelled from the spec: `AuthDelegate::setAuthObserver` of the missing
AuthDelegate.cpp.  Replacing the observer with the same reference delivers
nothing; installing a different, non-null observer immediately delivers the
engine's current state as a synthetic notification; setting it to null
detaches delivery.  Returns the updated engine and the notifications
delivered synchronously by the call. -/
def AuthDelegate.setAuthObserver (d : AuthDelegate) (obs : Option Nat) :
    AuthDelegate × List AuthState :=
  if obs = d.observer then (d, [])
  else
    ({ d with observer := obs },
     match obs with
     | some _ => [d.state.authState]
     | none => [])

/-- Notifications actually delivered to the observer slot: everything when
an observer is attached, nothing when the slot is empty. -/
def delivered (obs : Option Nat) (notes : List (Nat × AuthState)) :
    List (Nat × AuthState) :=
  match obs with
  | some _ => notes
  | none => []

/-- Parsed JSON body of a valid LWA response with the given `expires_in`
value, mirroring `generateValidLwaResponseWithExpiration` in
`AuthDelegateTest.cpp`. -/
def validLwaBody (e : Int) : JsonObject :=
  ⟨[("access_token", JsonValue.jstr "Atza|IQEBLjAsAhQ3yD47Jkj09BfU_qgNk4"),
    ("expires_in", JsonValue.jnum e),
    ("refresh_token", JsonValue.jstr "Atzr|IQEBLzAtAhUAibmh-1N0EVztZJofMx"),
    ("token_type", JsonValue.jstr "bearer")]⟩

/-- A successful HTTP result carrying a valid LWA body. -/
def validLwaResult (e : Int) : HttpResult :=
  ⟨ResponseCode.SUCCESS_OK, some (validLwaBody e)⟩

/-- A transport-level failure, the default `doPost` action of the test
fixture (`ResponseCode::UNDEFINED`). -/
def undefinedResult : HttpResult :=
  ⟨ResponseCode.UNDEFINED, none⟩

/-- Parsed JSON body of an LWA error response with the given error code,
mirroring `generateErrorLwaResponseWithErrorCode` in `AuthDelegateTest.cpp`. -/
def errorLwaBody (c : String) : JsonObject :=
  ⟨[("error", JsonValue.jstr c),
    ("error_description", JsonValue.jstr "invalid request"),
    ("request_id", JsonValue.jstr "test_ID")]⟩

/-- A client-error HTTP result carrying the `invalid_request` error body
used by the `unrecoverableErrorNotification` test. -/
def invalidRequestResult : HttpResult :=
  ⟨ResponseCode.CLIENT_ERROR_BAD_REQUEST, some (errorLwaBody "invalid_request")⟩

/-- The configuration the test fixture's `SetUp` stubs provide. -/
def testConfig : Config :=
  ⟨"testClientId (invalid)", "testClientSecret (invalid)",
   "testRefreshToken (invalid)", some DEFAULT_LWA_URL⟩

/-! ## Helper lemmas about the loop -/

theorem runLoop_unrecoverable (url : String) (s : EngineState)
    (script : List HttpResult) (h : s.authState = AuthState.UNRECOVERABLE_ERROR) :
    runLoop url s script = { posts := [], notes := [], final := s } := by
  cases script with
  | nil => rfl
  | cons r rest => simp [runLoop, h]

theorem runLoop_posts_eq_url (url : String) :
    ∀ (script : List HttpResult) (s : EngineState) (u : String),
      u ∈ (runLoop url s script).posts → u = url := by
  intro script
  induction script with
  | nil => intro s u hu; simp [runLoop] at hu
  | cons r rest ih =>
    intro s u hu
    by_cases h : s.authState = AuthState.UNRECOVERABLE_ERROR
    · simp [runLoop, h] at hu
    · simp only [runLoop, if_neg h, List.mem_cons] at hu
      rcases hu with rfl | hu
      · rfl
      · exact ih _ _ hu

theorem notifyIfChanged_snd (old new : AuthState) (t : Nat) (x : Nat × AuthState)
    (hx : x ∈ notifyIfChanged old new t) : x.snd = new := by
  unfold notifyIfChanged at hx
  split at hx
  · simp at hx
  · simp at hx
    rw [hx]

theorem checkExpiry_snd (s : EngineState) (x : Nat × AuthState)
    (hx : x ∈ (checkExpiry s).snd) : x.snd = AuthState.EXPIRED := by
  unfold checkExpiry at hx
  split at hx
  · split at hx
    · simp at hx
      rw [hx]
    · simp at hx
  · simp at hx

theorem handleOutcome_snd (s : EngineState) (r : ClassifyResult) (x : Nat × AuthState)
    (hx : x ∈ (handleOutcome s r).snd) :
    x.snd = AuthState.REFRESHED ∨ x.snd = AuthState.UNRECOVERABLE_ERROR := by
  unfold handleOutcome at hx
  rcases r with ⟨a, e, rt⟩ | _ | _
  · exact Or.inl (notifyIfChanged_snd _ _ _ _ hx)
  · simp only at hx
    split at hx
    · exact Or.inr (notifyIfChanged_snd _ _ _ _ hx)
    · simp at hx
  · exact Or.inr (notifyIfChanged_snd _ _ _ _ hx)

theorem runLoop_notes_ne_uninitialized (url : String) :
    ∀ (script : List HttpResult) (s : EngineState) (x : Nat × AuthState),
      x ∈ (runLoop url s script).notes → x.snd ≠ AuthState.UNINITIALIZED := by
  intro script
  induction script with
  | nil => intro s x hx; simp [runLoop] at hx
  | cons r rest ih =>
    intro s x hx
    by_cases h : s.authState = AuthState.UNRECOVERABLE_ERROR
    · simp [runLoop, h] at hx
    · simp only [runLoop, if_neg h, List.mem_append] at hx
      rcases hx with (hx | hx) | hx
      · rw [checkExpiry_snd _ _ hx]
        intro hc
        exact AuthState.noConfusion hc
      · rcases handleOutcome_snd _ _ _ hx with h2 | h2 <;> rw [h2] <;>
          intro hc <;> exact AuthState.noConfusion hc
      · exact ih _ _ hx

theorem checkExpiry_authState_ne_uninitialized (s : EngineState)
    (h : s.authState ≠ AuthState.UNINITIALIZED) :
    (checkExpiry s).fst.authState ≠ AuthState.UNINITIALIZED := by
  unfold checkExpiry
  split
  · split
    · intro hc
      exact AuthState.noConfusion hc
    · exact h
  · exact h

theorem handleOutcome_authState_ne_uninitialized (s : EngineState) (r : ClassifyResult)
    (h : s.authState ≠ AuthState.UNINITIALIZED) :
    (handleOutcome s r).fst.authState ≠ AuthState.UNINITIALIZED := by
  unfold handleOutcome
  rcases r with ⟨a, e, rt⟩ | _ | _
  · intro hc
    exact AuthState.noConfusion hc
  · simp only
    split
    · intro hc
      exact AuthState.noConfusion hc
    · exact h
  · intro hc
    exact AuthState.noConfusion hc

theorem runLoop_final_ne_uninitialized (url : String) :
    ∀ (script : List HttpResult) (s : EngineState),
      s.authState ≠ AuthState.UNINITIALIZED →
      (runLoop url s script).final.authState ≠ AuthState.UNINITIALIZED := by
  intro script
  induction script with
  | nil => intro s h; exact h
  | cons r rest ih =>
    intro s h
    by_cases hu : s.authState = AuthState.UNRECOVERABLE_ERROR
    · rw [runLoop_unrecoverable url s _ hu]
      exact h
    · simp only [runLoop, if_neg hu]
      exact ih _ (handleOutcome_authState_ne_uninitialized _ _
        (checkExpiry_authState_ne_uninitialized _ h))

theorem runLoop_success1_then_retryables (url : String) (w : HttpResult)
    (a rt : String)
    (hw : classifyResponse w.code w.body = ClassifyResult.Success a 1 rt)
    (script : List HttpResult)
    (hall : ∀ x ∈ script, classifyResponse x.code x.body = ClassifyResult.RetryableFailure)
    (hlen : 2 ≤ script.length) :
    ((runLoop url initialEngineState (w :: script)).notes).take 2
      = [(0, AuthState.REFRESHED), (1, AuthState.EXPIRED)] := by
  obtain ⟨x1, script1, rfl⟩ : ∃ x1 t, script = x1 :: t := by
    cases script with
    | nil => simp at hlen
    | cons y t => exact ⟨y, t, rfl⟩
  obtain ⟨x2, script2, rfl⟩ : ∃ x2 t, script1 = x2 :: t := by
    cases script1 with
    | nil => simp at hlen
    | cons y t => exact ⟨y, t, rfl⟩
  have h1 := hall x1 (by simp)
  have h2 := hall x2 (by simp)
  simp [runLoop, initialEngineState, checkExpiry, handleOutcome, hw, h1, h2,
        notifyIfChanged, backoffWait, baseRetryDelay, capExponent, maxJitter,
        maxWaitCeiling, maxConsecutiveFailures, earlyRefreshMargin]

theorem classifyResponse_success_iff (body : Option JsonObject) (a : String)
    (n : Nat) (rt : String) :
    classifyResponse ResponseCode.SUCCESS_OK body = ClassifyResult.Success a n rt ↔
      ∃ obj, body = some obj
        ∧ obj.getString "access_token" = some a
        ∧ obj.getInt "expires_in" = some (n : Int)
        ∧ obj.getString "refresh_token" = some rt := by
  cases body with
  | none => simp [classifyResponse]
  | some obj =>
    simp only [classifyResponse]
    rcases ha : obj.getString "access_token" with _ | a0 <;>
      rcases he : obj.getInt "expires_in" with _ | e0 <;>
        rcases hr : obj.getString "refresh_token" with _ | r0 <;>
          simp only [ha, he, hr]
    all_goals try (simp [ha, he, hr]; done)
    by_cases h0 : (0 : Int) ≤ e0
    · rw [if_pos h0]
      simp only [ClassifyResult.Success.injEq, Option.some.injEq]
      constructor
      · rintro ⟨rfl, rfl, rfl⟩
        exact ⟨obj, rfl, ha, by rw [he, Int.toNat_of_nonneg h0], hr⟩
      · rintro ⟨obj2, hobj, ha2, he2, hr2⟩
        subst hobj
        rw [ha] at ha2
        rw [he] at he2
        rw [hr] at hr2
        injection ha2 with ha2
        injection he2 with he2
        injection hr2 with hr2
        refine ⟨ha2, ?_, hr2⟩
        omega
    · rw [if_neg h0]
      simp only [reduceCtorEq, false_iff, not_exists]
      rintro obj2 ⟨hobj, ha2, he2, hr2⟩
      injection hobj with hobj
      subst hobj
      rw [he] at he2
      injection he2 with he2
      omega

theorem classifyResponse_success_code (code : ResponseCode) (body : Option JsonObject)
    (a : String) (n : Nat) (rt : String)
    (h : classifyResponse code body = ClassifyResult.Success a n rt) :
    code = ResponseCode.SUCCESS_OK := by
  cases code with
  | SUCCESS_OK => rfl
  | CLIENT_ERROR_BAD_REQUEST =>
    exfalso
    cases body with
    | none => simp [classifyResponse] at h
    | some obj =>
      simp only [classifyResponse] at h
      split at h
      · split at h <;> simp at h
      · simp at h
  | SERVER_ERROR_INTERNAL => simp [classifyResponse] at h
  | UNDEFINED => simp [classifyResponse] at h

theorem createAndRun_invalidRequest (rest : List HttpResult) :
    createAndRun (some testConfig) (invalidRequestResult :: rest)
      = ([DEFAULT_LWA_URL], [(0, AuthState.UNRECOVERABLE_ERROR)]) := by
  have hc : AuthDelegate.create (some testConfig)
      = some ⟨testConfig, DEFAULT_LWA_URL, initialEngineState, none⟩ := by rfl
  simp only [createAndRun, hc]
  have hcl : classifyResponse invalidRequestResult.code invalidRequestResult.body
      = ClassifyResult.FatalFailure := by rfl
  simp only [runLoop, initialEngineState, checkExpiry, handleOutcome,
    notifyIfChanged, hcl]
  rw [runLoop_unrecoverable _ _ rest rfl]
  simp

/-! ## Claim theorems -/

/-- C1: `AuthDelegate::create` returns no engine whenever the config
reference is null, or clientId, clientSecret or refreshToken is empty; for
every config with all three fields non-empty it returns a live engine (in
UNINITIALIZED); and on any validation failure no network activity occurs and
no background work is started (the created-and-run pipeline posts nothing
and notifies nothing). -/
theorem create_validation_and_no_network :
    AuthDelegate.create none = none
    ∧ (∀ c : Config, c.clientId = "" → AuthDelegate.create (some c) = none)
    ∧ (∀ c : Config, c.clientSecret = "" → AuthDelegate.create (some c) = none)
    ∧ (∀ c : Config, c.refreshToken = "" → AuthDelegate.create (some c) = none)
    ∧ (∀ c : Config, c.clientId ≠ "" → c.clientSecret ≠ "" → c.refreshToken ≠ "" →
        ∃ d : AuthDelegate, AuthDelegate.create (some c) = some d
          ∧ d.state.authState = AuthState.UNINITIALIZED)
    ∧ (∀ (config : Option Config) (script : List HttpResult),
        AuthDelegate.create config = none → createAndRun config script = ([], [])) := by
  refine ⟨rfl, ?_, ?_, ?_, ?_, ?_⟩
  · intro c h
    simp [AuthDelegate.create, h]
  · intro c h
    simp [AuthDelegate.create, h]
  · intro c h
    simp [AuthDelegate.create, h]
  · intro c h1 h2 h3
    refine ⟨⟨c, effectiveLwaUrl c, initialEngineState, none⟩, ?_, rfl⟩
    simp [AuthDelegate.create, h1, h2, h3]
  · intro config script h
    simp [createAndRun, h]

/-- Witness for C1 at concrete inputs: an empty clientId fails creation, the
test fixture's config succeeds, and a failed creation runs nothing. -/
theorem create_validation_and_no_network_witness :
    AuthDelegate.create (some ⟨"", "s", "r", none⟩) = none
    ∧ (∃ d : AuthDelegate, AuthDelegate.create (some testConfig) = some d
        ∧ d.state.authState = AuthState.UNINITIALIZED)
    ∧ createAndRun (some ⟨"", "s", "r", none⟩) [undefinedResult] = ([], []) :=
  ⟨create_validation_and_no_network.2.1 ⟨"", "s", "r", none⟩ rfl,
   create_validation_and_no_network.2.2.2.2.1 testConfig (by decide) (by decide)
     (by decide),
   create_validation_and_no_network.2.2.2.2.2 (some ⟨"", "s", "r", none⟩)
     [undefinedResult]
     (create_validation_and_no_network.2.1 ⟨"", "s", "r", none⟩ rfl)⟩

/-- C2: a client-error response whose JSON body's `error` field is a
recognized fatal code classifies as FatalFailure; processing a FatalFailure
moves any non-terminal engine to UNRECOVERABLE_ERROR and notifies the
observer of it; UNRECOVERABLE_ERROR is terminal (the loop performs no
further HTTP POST and emits nothing from it); and the test's
`invalid_request` scenario posts exactly once no matter how many further
responses the transport could supply. -/
theorem fatal_error_unrecoverable_terminal :
    (∀ (obj : JsonObject) (err : String), obj.getString "error" = some err →
       err ∈ recognizedFatalErrorCodes →
       classifyResponse ResponseCode.CLIENT_ERROR_BAD_REQUEST (some obj)
         = ClassifyResult.FatalFailure)
    ∧ (∀ s : EngineState, s.authState ≠ AuthState.UNRECOVERABLE_ERROR →
        (handleOutcome s ClassifyResult.FatalFailure).fst.authState
            = AuthState.UNRECOVERABLE_ERROR
        ∧ (handleOutcome s ClassifyResult.FatalFailure).snd
            = [(s.nextAttemptAt, AuthState.UNRECOVERABLE_ERROR)])
    ∧ (∀ (url : String) (s : EngineState) (script : List HttpResult),
        s.authState = AuthState.UNRECOVERABLE_ERROR →
        runLoop url s script = { posts := [], notes := [], final := s })
    ∧ (∀ rest : List HttpResult,
        createAndRun (some testConfig) (invalidRequestResult :: rest)
          = ([DEFAULT_LWA_URL], [(0, AuthState.UNRECOVERABLE_ERROR)])) := by
  refine ⟨?_, ?_, ?_, ?_⟩
  · intro obj err h1 h2
    simp [classifyResponse, h1, h2]
  · intro s h
    exact ⟨rfl, by simp [handleOutcome, notifyIfChanged, h]⟩
  · exact runLoop_unrecoverable
  · exact createAndRun_invalidRequest

/-- Witness for C2 at concrete inputs: the test's `invalid_request` body is
fatal, processing it from the initial state goes terminal, and the scripted
run posts exactly once. -/
theorem fatal_error_unrecoverable_terminal_witness :
    classifyResponse ResponseCode.CLIENT_ERROR_BAD_REQUEST
        (some (errorLwaBody "invalid_request")) = ClassifyResult.FatalFailure
    ∧ (handleOutcome initialEngineState ClassifyResult.FatalFailure).fst.authState
        = AuthState.UNRECOVERABLE_ERROR
    ∧ createAndRun (some testConfig) [invalidRequestResult, undefinedResult]
        = ([DEFAULT_LWA_URL], [(0, AuthState.UNRECOVERABLE_ERROR)]) :=
  ⟨fatal_error_unrecoverable_terminal.1 (errorLwaBody "invalid_request")
     "invalid_request" rfl (by decide),
   (fatal_error_unrecoverable_terminal.2.1 initialEngineState (by decide)).1,
   fatal_error_unrecoverable_terminal.2.2.2 [undefinedResult]⟩

/-- C3 counterexample: with the consecutive-failure cap of the backoff
policy, a script of `maxConsecutiveFailures` transport failures followed by
a valid response never reaches REFRESHED — the engine escalates to
UNRECOVERABLE_ERROR first, refuting the claim that every run of retryable
failures eventually followed by a Success yields REFRESHED with no
UNRECOVERABLE_ERROR. -/
theorem retry_escalation_counterexample :
    AuthState.REFRESHED ∉ ((createAndRun (some testConfig)
        (List.replicate maxConsecutiveFailures undefinedResult
          ++ [validLwaResult 60])).snd).map Prod.snd
    ∧ AuthState.UNRECOVERABLE_ERROR ∈ ((createAndRun (some testConfig)
        (List.replicate maxConsecutiveFailures undefinedResult
          ++ [validLwaResult 60])).snd).map Prod.snd := by
  constructor <;> decide

/-- C3 (amended): starting in UNINITIALIZED, if every refresh attempt yields
a RetryableFailure until some attempt yields Success, and the number of
consecutive retryable failures stays below the escalation cap, then the
observer receives exactly one notification — REFRESHED — so it never
receives UNRECOVERABLE_ERROR and the intermediate retryable failures
produce no observer notification at all. -/
theorem retry_eventual_refresh_below_cap (url : String) (w : HttpResult)
    (a : String) (e : Nat) (rt : String)
    (hw : classifyResponse w.code w.body = ClassifyResult.Success a e rt) :
    ∀ (script : List HttpResult) (s : EngineState),
      s.authState = AuthState.UNINITIALIZED → s.expiresAt = none →
      s.retryCount + script.length + 1 ≤ maxConsecutiveFailures →
      (∀ x ∈ script, classifyResponse x.code x.body = ClassifyResult.RetryableFailure) →
      ((runLoop url s (script ++ [w])).notes).map Prod.snd = [AuthState.REFRESHED] := by
  intro script
  induction script with
  | nil =>
    intro s h1 h2 _ _
    have hne : s.authState ≠ AuthState.UNRECOVERABLE_ERROR := by
      rw [h1]
      intro hc
      exact AuthState.noConfusion hc
    simp [runLoop, if_neg hne, checkExpiry, h1, h2, hw, handleOutcome,
          notifyIfChanged]
  | cons x rest ih =>
    intro s h1 h2 hlen hall
    have hx : classifyResponse x.code x.body = ClassifyResult.RetryableFailure :=
      hall x (List.mem_cons_self x rest)
    have hne : s.authState ≠ AuthState.UNRECOVERABLE_ERROR := by
      rw [h1]
      intro hc
      exact AuthState.noConfusion hc
    have hesc : ¬ (maxConsecutiveFailures ≤ s.retryCount + 1) := by
      simp only [maxConsecutiveFailures] at hlen ⊢
      simp only [List.length_cons] at hlen
      omega
    simp only [List.cons_append, runLoop, if_neg hne, checkExpiry, h1, h2, hx,
        handleOutcome, if_neg hesc]
    simp only [List.nil_append, List.map_append]
    exact ih _ rfl rfl
      (by simp only [List.length_cons] at hlen; dsimp only; omega)
      (fun y hy => hall y (List.mem_cons_of_mem x hy))

/-- Witness for the amended C3 at a concrete script: two transport failures
then the test's valid response yield exactly one REFRESHED notification. -/
theorem retry_eventual_refresh_below_cap_witness :
    ((runLoop DEFAULT_LWA_URL initialEngineState
        ([undefinedResult, undefinedResult] ++ [validLwaResult 60])).notes).map
      Prod.snd = [AuthState.REFRESHED] :=
  retry_eventual_refresh_below_cap DEFAULT_LWA_URL (validLwaResult 60)
    "Atza|IQEBLjAsAhQ3yD47Jkj09BfU_qgNk4" 60 "Atzr|IQEBLzAtAhUAibmh-1N0EVztZJofMx"
    rfl [undefinedResult, undefinedResult] initialEngineState rfl rfl
    (by decide) (by decide)

/-- C4: after a Success with `expires_in = 1` followed only by retryable
failures, the observer receives REFRESHED at the success instant and then
EXPIRED exactly at the expiry instant (success time + 1), in that order; the
expiry transition fires at `expiresAt` whenever the expiry instant arrives
no later than the pending retry, regardless of the retry in progress; and
every Success records `expiresAt = now + expires_in`. -/
theorem expiration_notification_order :
    (∀ (url : String) (w : HttpResult) (a rt : String),
       classifyResponse w.code w.body = ClassifyResult.Success a 1 rt →
       ∀ script : List HttpResult,
         (∀ x ∈ script, classifyResponse x.code x.body = ClassifyResult.RetryableFailure) →
         2 ≤ script.length →
         ((runLoop url initialEngineState (w :: script)).notes).take 2
           = [(0, AuthState.REFRESHED), (1, AuthState.EXPIRED)])
    ∧ (∀ (s : EngineState) (e : Nat), s.authState = AuthState.REFRESHED →
        s.expiresAt = some e → e ≤ s.nextAttemptAt →
        checkExpiry s = ({ s with authState := AuthState.EXPIRED, now := e },
          [(e, AuthState.EXPIRED)]))
    ∧ (∀ (s : EngineState) (a rt : String) (ei : Nat),
        (handleOutcome s (ClassifyResult.Success a ei rt)).fst.expiresAt
          = some (s.nextAttemptAt + ei)) := by
  refine ⟨?_, ?_, ?_⟩
  · intro url w a rt hw script hall hlen
    exact runLoop_success1_then_retryables url w a rt hw script hall hlen
  · intro s e h1 h2 h3
    simp [checkExpiry, h1, h2, h3]
  · intro s a rt ei
    rfl

/-- Witness for C4 at a concrete script: a 1-second token then two transport
failures produce REFRESHED at time 0 and EXPIRED at time 1. -/
theorem expiration_notification_order_witness :
    ((runLoop DEFAULT_LWA_URL initialEngineState
        (validLwaResult 1 :: [undefinedResult, undefinedResult])).notes).take 2
      = [(0, AuthState.REFRESHED), (1, AuthState.EXPIRED)] :=
  expiration_notification_order.1 DEFAULT_LWA_URL (validLwaResult 1)
    "Atza|IQEBLjAsAhQ3yD47Jkj09BfU_qgNk4" "Atzr|IQEBLzAtAhUAibmh-1N0EVztZJofMx"
    rfl [undefinedResult, undefinedResult] (by decide) (by decide)

/-- C5: from EXPIRED, a Success outcome transitions back to REFRESHED and the
observer is notified of REFRESHED again; the test scenario (observer
registered at creation, then success with 1-second expiry, two transport
failures and a second success) delivers exactly the sequence
UNINITIALIZED, REFRESHED, EXPIRED, REFRESHED, each transition reported once
and in order. -/
theorem recover_after_expiration_cycle :
    (∀ (s : EngineState) (a rt : String) (ei : Nat),
       s.authState = AuthState.EXPIRED →
       (handleOutcome s (ClassifyResult.Success a ei rt)).fst.authState
           = AuthState.REFRESHED
       ∧ (handleOutcome s (ClassifyResult.Success a ei rt)).snd
           = [(s.nextAttemptAt, AuthState.REFRESHED)])
    ∧ (∀ d : AuthDelegate, AuthDelegate.create (some testConfig) = some d →
        (d.setAuthObserver (some 0)).snd
            ++ ((runLoop d.url d.state
                  [validLwaResult 1, undefinedResult, undefinedResult,
                   validLwaResult 60]).notes).map Prod.snd
          = [AuthState.UNINITIALIZED, AuthState.REFRESHED, AuthState.EXPIRED,
             AuthState.REFRESHED]) := by
  constructor
  · intro s a rt ei h
    exact ⟨rfl, by simp [handleOutcome, notifyIfChanged, h]⟩
  · intro d hd
    have hd2 : d = ⟨testConfig, DEFAULT_LWA_URL, initialEngineState, none⟩ := by
      have hc : AuthDelegate.create (some testConfig)
          = some ⟨testConfig, DEFAULT_LWA_URL, initialEngineState, none⟩ := by rfl
      rw [hc] at hd
      exact (Option.some.inj hd).symm
    subst hd2
    decide

/-- Witness for C5 at concrete inputs: a Success processed in a concrete
EXPIRED state notifies REFRESHED, and the concrete created engine observes
the full UNINITIALIZED, REFRESHED, EXPIRED, REFRESHED cycle. -/
theorem recover_after_expiration_cycle_witness :
    (handleOutcome ⟨AuthState.EXPIRED, 2, some 1, 2, 6⟩
        (ClassifyResult.Success "a" 60 "r")).snd = [(6, AuthState.REFRESHED)]
    ∧ ((AuthDelegate.setAuthObserver
          ⟨testConfig, DEFAULT_LWA_URL, initialEngineState, none⟩ (some 0)).snd
        ++ ((runLoop DEFAULT_LWA_URL initialEngineState
              [validLwaResult 1, undefinedResult, undefinedResult,
               validLwaResult 60]).notes).map Prod.snd
      = [AuthState.UNINITIALIZED, AuthState.REFRESHED, AuthState.EXPIRED,
         AuthState.REFRESHED]) :=
  ⟨(recover_after_expiration_cycle.1 ⟨AuthState.EXPIRED, 2, some 1, 2, 6⟩
      "a" "r" 60 rfl).2,
   recover_after_expiration_cycle.2
     ⟨testConfig, DEFAULT_LWA_URL, initialEngineState, none⟩ rfl⟩

/-- C6: installing a new (different, non-null) observer synchronously
delivers the engine's current state; an observer installed on a freshly
created engine receives UNINITIALIZED; the background loop never notifies
UNINITIALIZED (so it is delivered at most once per engine lifetime); and the
state machine never regresses back to UNINITIALIZED after leaving it. -/
theorem observer_registration_synthetic_uninitialized :
    (∀ (d : AuthDelegate) (i : Nat), some i ≠ d.observer →
       (d.setAuthObserver (some i)).snd = [d.state.authState])
    ∧ (∀ (c : Config) (d : AuthDelegate), AuthDelegate.create (some c) = some d →
        d.observer = none ∧ (d.setAuthObserver (some 0)).snd = [AuthState.UNINITIALIZED])
    ∧ (∀ (url : String) (script : List HttpResult) (s : EngineState)
         (x : Nat × AuthState),
        x ∈ (runLoop url s script).notes → x.snd ≠ AuthState.UNINITIALIZED)
    ∧ (∀ (url : String) (script : List HttpResult) (s : EngineState),
        s.authState ≠ AuthState.UNINITIALIZED →
        (runLoop url s script).final.authState ≠ AuthState.UNINITIALIZED) := by
  refine ⟨?_, ?_, ?_, ?_⟩
  · intro d i h
    simp [AuthDelegate.setAuthObserver, h]
  · intro c d hd
    simp only [AuthDelegate.create] at hd
    by_cases hcond : c.clientId = "" ∨ c.clientSecret = "" ∨ c.refreshToken = ""
    · rw [if_pos hcond] at hd
      exact absurd hd (by simp)
    · rw [if_neg hcond] at hd
      have hd2 := (Option.some.inj hd).symm
      subst hd2
      exact ⟨rfl, rfl⟩
  · intro url script s x hx
    exact runLoop_notes_ne_uninitialized url script s x hx
  · intro url script s h
    exact runLoop_final_ne_uninitialized url script s h

/-- Witness for C6 at concrete inputs: installing observer 0 on the concrete
created engine delivers UNINITIALIZED; the REFRESHED note of a concrete run
is not UNINITIALIZED; and a run started in REFRESHED never ends back in
UNINITIALIZED. -/
theorem observer_registration_synthetic_uninitialized_witness :
    (AuthDelegate.setAuthObserver
        ⟨testConfig, DEFAULT_LWA_URL, initialEngineState, none⟩ (some 0)).snd
      = [AuthState.UNINITIALIZED]
    ∧ ((0 : Nat), AuthState.REFRESHED).snd ≠ AuthState.UNINITIALIZED
    ∧ (runLoop DEFAULT_LWA_URL ⟨AuthState.REFRESHED, 0, some 60, 0, 55⟩
        [undefinedResult]).final.authState ≠ AuthState.UNINITIALIZED :=
  ⟨(observer_registration_synthetic_uninitialized.2.1 testConfig
      ⟨testConfig, DEFAULT_LWA_URL, initialEngineState, none⟩ rfl).2,
   observer_registration_synthetic_uninitialized.2.2.1 DEFAULT_LWA_URL
     [validLwaResult 60] initialEngineState (0, AuthState.REFRESHED) (by decide),
   observer_registration_synthetic_uninitialized.2.2.2 DEFAULT_LWA_URL
     [undefinedResult] ⟨AuthState.REFRESHED, 0, some 60, 0, 55⟩ (by decide)⟩

/-- C7: the ResponseClassifier is total — it returns exactly one of Success,
RetryableFailure, FatalFailure for every pair; it returns Success if and
only if the code is SUCCESS_OK and the body parses to a JSON object with a
string `access_token`, a non-negative integer `expires_in` and a string
`refresh_token`; transport-level UNDEFINED and server errors are always
retryable; and a success-coded response is never fatal (so a malformed
success body falls to RetryableFailure by totality). -/
theorem response_classifier_total_correct :
    (∀ (code : ResponseCode) (body : Option JsonObject),
       (∃ a n rt, classifyResponse code body = ClassifyResult.Success a n rt)
       ∨ classifyResponse code body = ClassifyResult.RetryableFailure
       ∨ classifyResponse code body = ClassifyResult.FatalFailure)
    ∧ (∀ (body : Option JsonObject) (a : String) (n : Nat) (rt : String),
        classifyResponse ResponseCode.SUCCESS_OK body = ClassifyResult.Success a n rt ↔
          ∃ obj, body = some obj
            ∧ obj.getString "access_token" = some a
            ∧ obj.getInt "expires_in" = some (n : Int)
            ∧ obj.getString "refresh_token" = some rt)
    ∧ (∀ (code : ResponseCode) (body : Option JsonObject) (a : String) (n : Nat)
         (rt : String),
        classifyResponse code body = ClassifyResult.Success a n rt →
        code = ResponseCode.SUCCESS_OK)
    ∧ (∀ body, classifyResponse ResponseCode.UNDEFINED body
        = ClassifyResult.RetryableFailure)
    ∧ (∀ body, classifyResponse ResponseCode.SERVER_ERROR_INTERNAL body
        = ClassifyResult.RetryableFailure)
    ∧ (∀ body, classifyResponse ResponseCode.SUCCESS_OK body
        ≠ ClassifyResult.FatalFailure) := by
  refine ⟨?_, classifyResponse_success_iff, classifyResponse_success_code,
    fun body => rfl, fun body => rfl, ?_⟩
  · intro code body
    rcases h : classifyResponse code body with ⟨a, n, rt⟩ | _ | _
    · exact Or.inl ⟨a, n, rt, rfl⟩
    · exact Or.inr (Or.inl rfl)
    · exact Or.inr (Or.inr rfl)
  · intro body hfat
    rcases body with _ | obj
    · simp [classifyResponse] at hfat
    · simp only [classifyResponse] at hfat
      split at hfat
      · split at hfat <;> simp at hfat
      · simp at hfat

/-- Witness for C7 at concrete inputs: the test's valid LWA body classifies
as Success via the characterization, and a success-coded response with the
error body classifies through the totality disjunction. -/
theorem response_classifier_total_correct_witness :
    classifyResponse ResponseCode.SUCCESS_OK (some (validLwaBody 60))
        = ClassifyResult.Success "Atza|IQEBLjAsAhQ3yD47Jkj09BfU_qgNk4" 60
            "Atzr|IQEBLzAtAhUAibmh-1N0EVztZJofMx"
    ∧ ResponseCode.SUCCESS_OK = ResponseCode.SUCCESS_OK
    ∧ ((∃ a n rt, classifyResponse ResponseCode.SUCCESS_OK (some (errorLwaBody "x"))
          = ClassifyResult.Success a n rt)
        ∨ classifyResponse ResponseCode.SUCCESS_OK (some (errorLwaBody "x"))
          = ClassifyResult.RetryableFailure
        ∨ classifyResponse ResponseCode.SUCCESS_OK (some (errorLwaBody "x"))
          = ClassifyResult.FatalFailure) :=
  ⟨(response_classifier_total_correct.2.1 (some (validLwaBody 60))
      "Atza|IQEBLjAsAhQ3yD47Jkj09BfU_qgNk4" 60
      "Atzr|IQEBLzAtAhUAibmh-1N0EVztZJofMx").mpr
    ⟨validLwaBody 60, rfl, rfl, rfl, rfl⟩,
   response_classifier_total_correct.2.2.1 ResponseCode.SUCCESS_OK
     (some (validLwaBody 60)) "Atza|IQEBLjAsAhQ3yD47Jkj09BfU_qgNk4" 60
     "Atzr|IQEBLzAtAhUAibmh-1N0EVztZJofMx" (by decide),
   response_classifier_total_correct.1 ResponseCode.SUCCESS_OK
     (some (errorLwaBody "x"))⟩

/-- C8: the BackoffPolicy wait for attempt count n (0-based) is
`base * 2^min(n, capExponent)` plus the bounded jitter, capped at the
maximum wait ceiling (hence never above the ceiling, and monotone in the
attempt count); the attempt count resets to 0 on every successful refresh;
below the cap a retryable failure increments the count and schedules the
next attempt after the backoff wait; and at the maximum consecutive-failure
count a RetryableFailure is escalated to a fatal failure
(UNRECOVERABLE_ERROR). -/
theorem backoff_policy_wait_reset_escalation :
    (∀ n j : Nat, j ≤ maxJitter →
       backoffWait n j = min (baseRetryDelay * 2 ^ min n capExponent + j) maxWaitCeiling)
    ∧ (∀ n j : Nat, backoffWait n j ≤ maxWaitCeiling)
    ∧ (∀ n n2 j : Nat, n ≤ n2 → backoffWait n j ≤ backoffWait n2 j)
    ∧ (∀ (s : EngineState) (a rt : String) (ei : Nat),
        (handleOutcome s (ClassifyResult.Success a ei rt)).fst.retryCount = 0)
    ∧ (∀ s : EngineState, s.retryCount + 1 < maxConsecutiveFailures →
        (handleOutcome s ClassifyResult.RetryableFailure).fst.retryCount
            = s.retryCount + 1
        ∧ (handleOutcome s ClassifyResult.RetryableFailure).fst.nextAttemptAt
            = s.nextAttemptAt + backoffWait s.retryCount 0)
    ∧ (∀ s : EngineState, maxConsecutiveFailures ≤ s.retryCount + 1 →
        (handleOutcome s ClassifyResult.RetryableFailure).fst.authState
          = AuthState.UNRECOVERABLE_ERROR) := by
  refine ⟨?_, ?_, ?_, fun s a rt ei => rfl, ?_, ?_⟩
  · intro n j h
    simp [backoffWait, Nat.min_eq_left h]
  · intro n j
    exact min_le_right _ _
  · intro n n2 j h
    unfold backoffWait
    have hpow : baseRetryDelay * 2 ^ min n capExponent
        ≤ baseRetryDelay * 2 ^ min n2 capExponent :=
      Nat.mul_le_mul_left _ (Nat.pow_le_pow_right (by decide)
        (min_le_min h (le_refl _)))
    exact min_le_min (Nat.add_le_add_right hpow _) (le_refl _)
  · intro s h
    have hesc : ¬ (maxConsecutiveFailures ≤ s.retryCount + 1) := by omega
    exact ⟨by simp [handleOutcome, hesc], by simp [handleOutcome, hesc]⟩
  · intro s h
    simp [handleOutcome, h]

/-- Witness for C8 at concrete inputs: wait for the fourth attempt with unit
jitter is 17 seconds; two consecutive failures from a fresh count schedule
after 2 seconds; and a tenth consecutive failure escalates. -/
theorem backoff_policy_wait_reset_escalation_witness :
    backoffWait 3 1 = min (baseRetryDelay * 2 ^ min 3 capExponent + 1) maxWaitCeiling
    ∧ ((handleOutcome ⟨AuthState.UNINITIALIZED, 0, none, 0, 0⟩
          ClassifyResult.RetryableFailure).fst.nextAttemptAt
        = 0 + backoffWait 0 0)
    ∧ (handleOutcome ⟨AuthState.UNINITIALIZED, 318, none, 9, 318⟩
          ClassifyResult.RetryableFailure).fst.authState
        = AuthState.UNRECOVERABLE_ERROR :=
  ⟨backoff_policy_wait_reset_escalation.1 3 1 (by decide),
   (backoff_policy_wait_reset_escalation.2.2.2.2.1
      ⟨AuthState.UNINITIALIZED, 0, none, 0, 0⟩ (by decide)).2,
   backoff_policy_wait_reset_escalation.2.2.2.2.2
     ⟨AuthState.UNINITIALIZED, 318, none, 9, 318⟩ (by decide)⟩

/-- C9: observer registration is idempotent and detachable — replacing the
observer with the same reference delivers nothing; setting it to null
delivers nothing and detaches delivery (`delivered` of an empty slot is
empty); and replacing the observer never changes the engine's loop state or
endpoint, so the subsequent background run is identical. -/
theorem observer_idempotent_detachable :
    (∀ d : AuthDelegate, d.setAuthObserver d.observer = (d, []))
    ∧ (∀ d : AuthDelegate, (d.setAuthObserver none).snd = [])
    ∧ (∀ notes : List (Nat × AuthState), delivered none notes = [])
    ∧ (∀ (d : AuthDelegate) (obs : Option Nat),
        ((d.setAuthObserver obs).fst).state = d.state
        ∧ ((d.setAuthObserver obs).fst).url = d.url)
    ∧ (∀ (d : AuthDelegate) (obs : Option Nat) (script : List HttpResult),
        runLoop ((d.setAuthObserver obs).fst).url ((d.setAuthObserver obs).fst).state
            script
          = runLoop d.url d.state script) := by
  refine ⟨?_, ?_, fun notes => rfl, ?_, ?_⟩
  · intro d
    simp [AuthDelegate.setAuthObserver]
  · intro d
    unfold AuthDelegate.setAuthObserver
    split
    · rfl
    · rfl
  · intro d obs
    unfold AuthDelegate.setAuthObserver
    split
    · exact ⟨rfl, rfl⟩
    · exact ⟨rfl, rfl⟩
  · intro d obs script
    unfold AuthDelegate.setAuthObserver
    split
    · rfl
    · rfl

/-- C10: the default refresh endpoint is exactly the LWA token URL
`https://api.amazon.com/auth/o2/token`; a config without an endpoint uses
it, a config with an endpoint is used as-is; and every HTTP POST of a
created engine's run is directed at the configured (or default) URL. -/
theorem default_lwa_url_and_post_target :
    DEFAULT_LWA_URL = "https://api.amazon.com/auth/o2/token"
    ∧ (∀ c : Config, c.lwaUrl = none → effectiveLwaUrl c = DEFAULT_LWA_URL)
    ∧ (∀ (c : Config) (u : String), c.lwaUrl = some u → effectiveLwaUrl c = u)
    ∧ (∀ (c : Config) (d : AuthDelegate) (script : List HttpResult) (u : String),
        AuthDelegate.create (some c) = some d →
        u ∈ (runLoop d.url d.state script).posts → u = effectiveLwaUrl c) := by
  refine ⟨rfl, ?_, ?_, ?_⟩
  · intro c h
    simp [effectiveLwaUrl, h]
  · intro c u h
    simp [effectiveLwaUrl, h]
  · intro c d script u hd hu
    have hurl : d.url = effectiveLwaUrl c := by
      simp only [AuthDelegate.create] at hd
      by_cases hcond : c.clientId = "" ∨ c.clientSecret = "" ∨ c.refreshToken = ""
      · rw [if_pos hcond] at hd
        exact absurd hd (by simp)
      · rw [if_neg hcond] at hd
        have hd2 := (Option.some.inj hd).symm
        subst hd2
        rfl
    rw [← hurl]
    exact runLoop_posts_eq_url d.url script d.state u hu

/-- Witness for C10 at concrete inputs: an unspecified endpoint falls back
to the default URL, and the single post of a one-element run from the
concrete created engine goes to the configured URL. -/
theorem default_lwa_url_and_post_target_witness :
    effectiveLwaUrl ⟨"a", "b", "c", none⟩ = DEFAULT_LWA_URL
    ∧ effectiveLwaUrl testConfig = DEFAULT_LWA_URL
    ∧ DEFAULT_LWA_URL = effectiveLwaUrl testConfig :=
  ⟨default_lwa_url_and_post_target.2.1 ⟨"a", "b", "c", none⟩ rfl,
   default_lwa_url_and_post_target.2.2.1 testConfig DEFAULT_LWA_URL rfl,
   default_lwa_url_and_post_target.2.2.2 testConfig
     ⟨testConfig, DEFAULT_LWA_URL, initialEngineState, none⟩ [undefinedResult]
     DEFAULT_LWA_URL rfl (by decide)⟩

end AvsAuth
